import Mathlib

/-!
Verification of the pymake statement tokenizer (sm.py).

The embedding translates the Python state machines literally:
- the ScannerIterator is a remaining-characters list; pushback is
  re-consing the character just read;
- the global recursion-depth counter of depth_checker is threaded
  through every call, and every result (normal or exceptional)
  reports the counter value and the scanner position at that moment,
  mirroring the mutable globals of the source;
- Python exceptions become the Err type; an uncaught exception is an
  err result carrying the depth and remaining input at raise time;
- the tokenizers terminate on an explicit fuel parameter (the source
  relies on each loop iteration consuming a character plus the depth
  bound); fuel exhaustion is the distinguished outOfFuel result, which
  never occurs for the inputs considered here.
-/

namespace Pymake

/-- Token classes of sm.py as a closed inductive: one constructor per
Symbol subclass.  Composite constructors carry the token_list. -/
inductive Symbol where
  | Literal (string : String)
  | AssignOp (string : String)
  | RuleOp (string : String)
  | Expression (token_list : List Symbol)
  | VarRef (token_list : List Symbol)
  | AssignmentExpression (token_list : List Symbol)
  | RuleExpression (token_list : List Symbol)
  | PrerequisiteList (token_list : List Symbol)
  | Recipe (token_list : List Symbol)
  | RecipeList (token_list : List Symbol)

mutual
/-- Symbol.makefile of sm.py: render a token back to Makefile text.
Leaves render their stored string; Expression-like composites
concatenate children; VarRef renders as dollar-paren around its
children; PrerequisiteList space-joins; RecipeList tab-prefixes and
newline-tab-joins. -/
def Symbol.makefile : Symbol → String
  | .Literal s => s
  | .AssignOp s => s
  | .RuleOp s => s
  | .Expression ts => mfConcat ts
  | .VarRef ts => "$(" ++ mfConcat ts ++ ")"
  | .AssignmentExpression ts => mfConcat ts
  | .RuleExpression ts => mfConcat ts
  | .PrerequisiteList ts => mfJoin " " ts
  | .Recipe ts => mfConcat ts
  | .RecipeList ts => "\t" ++ mfJoin "\n\t" ts

/-- Concatenation of the rendered children (Expression.makefile's loop). -/
def mfConcat : List Symbol → String
  | [] => ""
  | t :: ts => t.makefile ++ mfConcat ts

/-- Python str.join over rendered children. -/
def mfJoin (sep : String) : List Symbol → String
  | [] => ""
  | [t] => t.makefile
  | t :: t2 :: ts => t.makefile ++ sep ++ mfJoin sep (t2 :: ts)
end

theorem makefile_varref_nested :
    Symbol.makefile (.VarRef [.Literal "a", .VarRef [.Literal "b"]]) = "$(a$(b))" := rfl

theorem makefile_prereq_join :
    Symbol.makefile (.PrerequisiteList [.Literal "x", .Literal "y"]) = "x y" := rfl

/-- Exceptions a tokenizer run can raise.  ParseError, NestedTooDeep are
the classes defined in sm.py; StopIteration is raised by
ScannerIterator.lookahead / next at end of input; AssertionError,
TypeError, NameError are the built-in exceptions the interpreter raises
at the corresponding statements (assert, list(None), the undefined
state_backspace name at sm.py:634).  AmbiguousStatement is
modelled from the spec: the error taxonomy (spec section 7) names it for
backtracking exhaustion, but no such class exists anywhere in the code. -/
inductive Err where
  | ParseError
  | NestedTooDeep (depth : Nat)
  | StopIteration
  | AssertionError
  | TypeError
  | NameError
  | AmbiguousStatement
deriving DecidableEq

/-- Outcome of running a tokenizer: a normal return, an uncaught
exception, or fuel exhaustion (never reached with adequate fuel).
Both normal and exceptional outcomes record the global depth counter
and the scanner position at that moment, because the source keeps both
in mutable state that survives the exception. -/
inductive Res (α : Type) where
  | ok (val : α) (depth : Nat) (rest : List Char)
  | err (e : Err) (depth : Nat) (rest : List Char)
  | outOfFuel

/-- whitespace = set( ' \t' ) of sm.py. -/
def whitespace : List Char := [' ', '\t']

/-- eol = set("\r\n") of sm.py. -/
def eol : List Char := ['\r', '\n']

/-- backslashable = set("% :,") of sm.py (tokenize_statement_LHS). -/
def backslashable : List Char := ['%', ' ', ':', ',']

/-- assignment_operators of sm.py. -/
def assignment_operators : List String := ["=", "?=", ":=", "::=", "+=", "!="]

/-- rule_operators of sm.py. -/
def rule_operators : List String := [":", "::"]

/-- Python str.rstrip(): drop trailing Python whitespace characters. -/
def pyRstrip (s : String) : String :=
  String.mk ((s.data.reverse.dropWhile
    (fun c => [' ', '\t', '\n', '\r', '\x0b', '\x0c'].contains c)).reverse)

/-- The .string attribute of a leaf token.  Composite tokens never set
the attribute (Expression.init does not call the base initializer), and
the code only reads it off the operator ending an LHS, which is always
a leaf; the composite branches here are unreachable. -/
def Symbol.stringAttr : Symbol → String
  | .Literal s => s
  | .AssignOp s => s
  | .RuleOp s => s
  | _ => ""

/-- isinstance(x, Expression): Expression and all of its subclasses. -/
def Symbol.isExpressionClass : Symbol → Bool
  | .Expression _ => true
  | .VarRef _ => true
  | .AssignmentExpression _ => true
  | .RuleExpression _ => true
  | .PrerequisiteList _ => true
  | .Recipe _ => true
  | .RecipeList _ => true
  | _ => false

/-- isinstance(x, AssignOp). -/
def Symbol.isAssignOpClass : Symbol → Bool
  | .AssignOp _ => true
  | _ => false

/-- isinstance(x, PrerequisiteList). -/
def Symbol.isPrerequisiteListClass : Symbol → Bool
  | .PrerequisiteList _ => true
  | _ => false

/-- Number of children of a composite token (len of its token_list). -/
def Symbol.childCount : Symbol → Nat
  | .Literal _ => 0
  | .AssignOp _ => 0
  | .RuleOp _ => 0
  | .Expression ts => ts.length
  | .VarRef ts => ts.length
  | .AssignmentExpression ts => ts.length
  | .RuleExpression ts => ts.length
  | .PrerequisiteList ts => ts.length
  | .Recipe ts => ts.length
  | .RecipeList ts => ts.length

/-- The eat-comment state of comment() in sm.py: consume characters up
to and including a newline; end of input simply ends the function. -/
def commentEat (d : Nat) : List Char → Res Unit
  | [] => .ok () d []
  | c :: cs => if c = '\n' then .ok () d cs else commentEat d cs

/-- comment() of sm.py: the scanner must be positioned at the hash
character (else ParseError); the comment runs to end of line.  An empty
input falls out of the loop in the start state and returns normally. -/
def comment (d : Nat) : List Char → Res Unit
  | [] => .ok () d []
  | c :: cs => if c = '#' then commentEat d cs else .err .ParseError d cs

/-- AssignmentExpression construction: the initializer asserts arity 3
and the child classes Expression / AssignOp / Expression. -/
def AssignmentExpression_mk (ts : List Symbol) (d : Nat) (rest : List Char) : Res Symbol :=
  match ts with
  | [a, b, c] =>
    if a.isExpressionClass && b.isAssignOpClass && c.isExpressionClass then
      .ok (.AssignmentExpression [a, b, c]) d rest
    else .err .AssertionError d rest
  | _ => .err .AssertionError d rest

/-- States of tokenize_variable_ref. -/
inductive VRState where
  | state_start
  | state_dollar
  | state_in_var_ref

/-- States of tokenize_statement_LHS. -/
inductive LHSState where
  | state_start
  | state_in_word
  | state_dollar
  | state_backslash
  | state_colon
  | state_colon_colon

/-- States of tokenize_rule_RHS. -/
inductive RRState where
  | state_start
  | state_word
  | state_colon
  | state_double_colon
  | state_dollar

/-- States of tokenize_assign_RHS. -/
inductive ARState where
  | state_start
  | state_dollar
  | state_literal
  | state_eol

mutual

/-- The for-loop of tokenize_variable_ref (sm.py:790-857), one fuel
unit per iteration.  token accumulates the current literal run,
token_list the children found so far; d is the global depth counter.
The source records the opener character but never consults it (the
closer match is a TODO), so it is not carried here. -/
def vrLoop (fuel : Nat) (st : VRState) (token : String) (token_list : List Symbol)
    (d : Nat) (s : List Char) : Res Symbol :=
  match fuel with
  | 0 => .outOfFuel
  | f + 1 =>
    match s with
    | [] => .err .ParseError d []
    | c :: cs =>
      match st with
      | .state_start =>
        if c = '$' then vrLoop f .state_dollar token token_list d cs
        else .err .ParseError d cs
      | .state_dollar =>
        if c = '(' ∨ c = '{' then
          vrLoop f .state_in_var_ref token token_list d cs
        else if c = '$' then
          vrLoop f .state_dollar (token.push '$') token_list d cs
        else if whitespace.contains c then
          vrLoop f .state_dollar token token_list d cs
        else
          .ok (.VarRef (token_list ++ [.Literal (String.mk [c])])) d cs
      | .state_in_var_ref =>
        if c = ')' ∨ c = '}' then
          .ok (.VarRef (token_list ++ [.Literal token])) d cs
        else if c = '$' then
          match cs with
          | [] => .err .StopIteration d []
          | c2 :: cs2 =>
            if c2 = '$' then
              vrLoop f .state_in_var_ref (token.push '$') token_list d cs2
            else
              match tokenize_variable_ref f d (c :: c2 :: cs2) with
              | .ok v d2 s2 =>
                vrLoop f .state_in_var_ref "" (token_list ++ [.Literal token, v]) d2 s2
              | .err e d2 s2 => .err e d2 s2
              | .outOfFuel => .outOfFuel
        else vrLoop f .state_in_var_ref (token.push c) token_list d cs

/-- tokenize_variable_ref decorated with depth_checker (sm.py:311-327):
increment the depth, fail with NestedTooDeep before reading anything if
it exceeds 10, and decrement only on normal return. -/
def tokenize_variable_ref (fuel : Nat) (d : Nat) (s : List Char) : Res Symbol :=
  if d + 1 > 10 then .err (.NestedTooDeep (d + 1)) (d + 1) s
  else
    match fuel with
    | 0 => .outOfFuel
    | f + 1 =>
      match vrLoop f .state_start "" [] (d + 1) s with
      | .ok v d2 s2 => .ok v (d2 - 1) s2
      | .err e d2 s2 => .err e d2 s2
      | .outOfFuel => .outOfFuel

/-- The for-loop of tokenize_statement_LHS (sm.py:367-526).  separators
is the separator set parameter (empty for assignment mode, whitespace
for rule mode).  Returns some (Expression, operator) on the explicit
return statements, and none when the loop exhausts the input in a state
with no operator (the source returns None there). -/
def lhsLoop (fuel : Nat) (separators : List Char) (st : LHSState) (token : String)
    (token_list : List Symbol) (d : Nat) (s : List Char) :
    Res (Option (Symbol × Symbol)) :=
  match fuel with
  | 0 => .outOfFuel
  | f + 1 =>
    match s with
    | [] =>
      match st with
      | .state_colon => .ok (some (.Expression token_list, .RuleOp ":")) d []
      | .state_colon_colon => .ok (some (.Expression token_list, .RuleOp "::")) d []
      | _ => .ok none d []
    | c :: cs =>
      match st with
      | .state_start =>
        if whitespace.contains c then
          lhsLoop f separators .state_start token token_list d cs
        else if c = ':' then
          lhsLoop f separators .state_colon token token_list d cs
        else
          lhsLoop f separators .state_in_word token token_list d (c :: cs)
      | .state_in_word =>
        if c = '\\' then
          lhsLoop f separators .state_backslash token token_list d cs
        else if separators.contains c then
          lhsLoop f separators .state_start "" (token_list ++ [.Literal token]) d cs
        else if c = '$' then
          lhsLoop f separators .state_dollar token token_list d cs
        else if c = '#' then
          match comment d (c :: cs) with
          | .ok _ d2 s2 => lhsLoop f separators .state_in_word token token_list d2 s2
          | .err e d2 s2 => .err e d2 s2
          | .outOfFuel => .outOfFuel
        else if c = ':' then
          lhsLoop f separators .state_colon token
            (token_list ++ [.Literal (pyRstrip token)]) d cs
        else if c = '?' ∨ c = '+' ∨ c = '!' then
          match cs with
          | [] => .err .StopIteration d []
          | c2 :: cs2 =>
            if c2 = '=' then
              .ok (some (.Expression (token_list ++ [.Literal (pyRstrip token)]),
                   .AssignOp (String.mk [c, '=']))) d cs2
            else lhsLoop f separators .state_in_word (token.push c) token_list d cs
        else if c = '=' then
          .ok (some (.Expression (token_list ++ [.Literal (pyRstrip token)]),
               .AssignOp "=")) d cs
        else lhsLoop f separators .state_in_word (token.push c) token_list d cs
      | .state_dollar =>
        if c = '$' then
          lhsLoop f separators .state_in_word (token.push '$') token_list d cs
        else
          match tokenize_variable_ref f d ('$' :: c :: cs) with
          | .ok v d2 s2 =>
            lhsLoop f separators .state_in_word "" (token_list ++ [.Literal token, v]) d2 s2
          | .err e d2 s2 => .err e d2 s2
          | .outOfFuel => .outOfFuel
      | .state_backslash =>
        if backslashable.contains c then
          lhsLoop f separators .state_in_word (token.push c) token_list d cs
        else
          lhsLoop f separators .state_in_word ((token.push '\\').push c) token_list d cs
      | .state_colon =>
        if c = ':' then
          lhsLoop f separators .state_colon_colon token token_list d cs
        else if c = '=' then
          .ok (some (.Expression token_list, .AssignOp ":=")) d cs
        else
          .ok (some (.Expression token_list, .RuleOp ":")) d (c :: cs)
      | .state_colon_colon =>
        if c = '=' then
          .ok (some (.Expression token_list, .AssignOp "::=")) d cs
        else
          .ok (some (.Expression token_list, .RuleOp "::")) d (c :: cs)

/-- tokenize_statement_LHS decorated with depth_checker. -/
def tokenize_statement_LHS (fuel : Nat) (separators : List Char) (d : Nat)
    (s : List Char) : Res (Option (Symbol × Symbol)) :=
  if d + 1 > 10 then .err (.NestedTooDeep (d + 1)) (d + 1) s
  else
    match fuel with
    | 0 => .outOfFuel
    | f + 1 =>
      match lhsLoop f separators .state_start "" [] (d + 1) s with
      | .ok v d2 s2 => .ok v (d2 - 1) s2
      | .err e d2 s2 => .err e d2 s2
      | .outOfFuel => .outOfFuel

/-- The for-loop of tokenize_rule_RHS (sm.py:561-708).  Returns none
for the return None statements (assignment detected, caller must
backtrack), and some token otherwise.  The backslash branch names the
undefined state_backspace (NameError); the order-only and pattern-rule
branches are assert 0 stubs. -/
def ruleRhsLoop (fuel : Nat) (st : RRState) (token : String) (token_list : List Symbol)
    (d : Nat) (s : List Char) : Res (Option Symbol) :=
  match fuel with
  | 0 => .outOfFuel
  | f + 1 =>
    match s with
    | [] => .ok (some (.PrerequisiteList (token_list ++ [.Literal token]))) d []
    | c :: cs =>
      match st with
      | .state_start =>
        if c = '$' then ruleRhsLoop f .state_dollar token token_list d cs
        else if c = '#' then
          match comment d (c :: cs) with
          | .ok _ d2 s2 => .ok (some (.PrerequisiteList token_list)) d2 s2
          | .err e d2 s2 => .err e d2 s2
          | .outOfFuel => .outOfFuel
        else if c = ';' then .ok (some (.PrerequisiteList token_list)) d cs
        else if ¬ whitespace.contains c then
          ruleRhsLoop f .state_word token token_list d (c :: cs)
        else ruleRhsLoop f .state_start token token_list d cs
      | .state_dollar =>
        if c = '$' then ruleRhsLoop f .state_word (token.push '$') token_list d cs
        else
          match tokenize_variable_ref f d ('$' :: c :: cs) with
          | .ok v d2 s2 =>
            ruleRhsLoop f .state_word ""
              (token_list ++ [.Literal (pyRstrip token), v]) d2 s2
          | .err e d2 s2 => .err e d2 s2
          | .outOfFuel => .outOfFuel
      | .state_word =>
        if whitespace.contains c then
          ruleRhsLoop f .state_start "" (token_list ++ [.Literal (pyRstrip token)]) d cs
        else if c = '\\' then .err .NameError d cs
        else if c = ':' then ruleRhsLoop f .state_colon token token_list d cs
        else if c = '|' then .err .AssertionError d cs
        else if c = '?' ∨ c = '+' ∨ c = '!' then
          match cs with
          | [] => .err .StopIteration d []
          | c2 :: cs2 =>
            if c2 = '=' then .ok none d (c2 :: cs2)
            else ruleRhsLoop f .state_word (token.push c) token_list d cs
        else if c = '=' then .ok none d cs
        else if c = '#' then
          match comment d (c :: cs) with
          | .ok _ d2 s2 => .ok (some (.Expression (token_list ++ [.Literal token]))) d2 s2
          | .err e d2 s2 => .err e d2 s2
          | .outOfFuel => .outOfFuel
        else if c = '$' then ruleRhsLoop f .state_dollar token token_list d cs
        else if c = ';' then
          .ok (some (.PrerequisiteList (token_list ++ [.Literal token]))) d cs
        else ruleRhsLoop f .state_word (token.push c) token_list d cs
      | .state_colon =>
        if c = ':' then ruleRhsLoop f .state_double_colon token token_list d cs
        else if c = '=' then .ok none d cs
        else .err .AssertionError d cs
      | .state_double_colon =>
        if c = '=' then .ok none d cs
        else .err .AssertionError d cs

/-- tokenize_rule_RHS decorated with depth_checker. -/
def tokenize_rule_RHS (fuel : Nat) (d : Nat) (s : List Char) : Res (Option Symbol) :=
  if d + 1 > 10 then .err (.NestedTooDeep (d + 1)) (d + 1) s
  else
    match fuel with
    | 0 => .outOfFuel
    | f + 1 =>
      match ruleRhsLoop f .state_start "" [] (d + 1) s with
      | .ok v d2 s2 => .ok v (d2 - 1) s2
      | .err e d2 s2 => .err e d2 s2
      | .outOfFuel => .outOfFuel

/-- The for-loop of tokenize_assign_RHS (sm.py:710-788): eat leading
whitespace only, then preserve everything verbatim up to a comment,
end of line or end of input. -/
def assignRhsLoop (fuel : Nat) (st : ARState) (token : String) (token_list : List Symbol)
    (d : Nat) (s : List Char) : Res Symbol :=
  match fuel with
  | 0 => .outOfFuel
  | f + 1 =>
    match s with
    | [] => .ok (.Expression (token_list ++ [.Literal token])) d []
    | c :: cs =>
      match st with
      | .state_start =>
        if c = '$' then assignRhsLoop f .state_dollar token token_list d cs
        else if c = '#' then
          match comment d (c :: cs) with
          | .ok _ d2 s2 => .ok (.Expression (token_list ++ [.Literal token])) d2 s2
          | .err e d2 s2 => .err e d2 s2
          | .outOfFuel => .outOfFuel
        else if ¬ whitespace.contains c then
          assignRhsLoop f .state_literal token token_list d (c :: cs)
        else assignRhsLoop f .state_start token token_list d cs
      | .state_dollar =>
        if c = '$' then assignRhsLoop f .state_literal (token.push '$') token_list d cs
        else
          match tokenize_variable_ref f d ('$' :: c :: cs) with
          | .ok v d2 s2 =>
            assignRhsLoop f .state_literal "" (token_list ++ [.Literal token, v]) d2 s2
          | .err e d2 s2 => .err e d2 s2
          | .outOfFuel => .outOfFuel
      | .state_literal =>
        if c = '$' then assignRhsLoop f .state_dollar token token_list d cs
        else if c = '#' then
          match comment d (c :: cs) with
          | .ok _ d2 s2 => .ok (.Expression (token_list ++ [.Literal token])) d2 s2
          | .err e d2 s2 => .err e d2 s2
          | .outOfFuel => .outOfFuel
        else if eol.contains c then assignRhsLoop f .state_eol token token_list d cs
        else assignRhsLoop f .state_literal (token.push c) token_list d cs
      | .state_eol =>
        if ¬ eol.contains c then
          .ok (.Expression (token_list ++ [.Literal token])) d (c :: cs)
        else assignRhsLoop f .state_eol token token_list d cs

/-- tokenize_assign_RHS decorated with depth_checker. -/
def tokenize_assign_RHS (fuel : Nat) (d : Nat) (s : List Char) : Res Symbol :=
  if d + 1 > 10 then .err (.NestedTooDeep (d + 1)) (d + 1) s
  else
    match fuel with
    | 0 => .outOfFuel
    | f + 1 =>
      match assignRhsLoop f .state_start "" [] (d + 1) s with
      | .ok v d2 s2 => .ok v (d2 - 1) s2
      | .err e d2 s2 => .err e d2 s2
      | .outOfFuel => .outOfFuel

/-- Body of tokenize_rule_prereq_or_assign (sm.py:528-559), run at the
already-incremented depth: try the prerequisite parse; on the None
signal restore the saved scanner position and re-tokenize as an
assignment (LHS in assignment mode, then the assignment RHS). -/
def prereqOrAssignBody (fuel : Nat) (d : Nat) (s : List Char) : Res Symbol :=
  match fuel with
  | 0 => .outOfFuel
  | f + 1 =>
    match tokenize_rule_RHS f d s with
    | .ok none d2 _ =>
      match tokenize_statement_LHS f [] d2 s with
      | .ok (some (lhsExpr, op)) d3 s3 =>
        if assignment_operators.contains op.stringAttr then
          match tokenize_assign_RHS f d3 s3 with
          | .ok rhsExpr d4 s4 => AssignmentExpression_mk [lhsExpr, op, rhsExpr] d4 s4
          | .err e d4 s4 => .err e d4 s4
          | .outOfFuel => .outOfFuel
        else .err .AssertionError d3 s3
      | .ok none d3 s3 => .err .TypeError d3 s3
      | .err e d3 s3 => .err e d3 s3
      | .outOfFuel => .outOfFuel
    | .ok (some rhs) d2 s2 =>
      if rhs.isPrerequisiteListClass then .ok rhs d2 s2
      else .err .AssertionError d2 s2
    | .err e d2 s2 => .err e d2 s2
    | .outOfFuel => .outOfFuel

/-- tokenize_rule_prereq_or_assign decorated with depth_checker. -/
def tokenize_rule_prereq_or_assign (fuel : Nat) (d : Nat) (s : List Char) : Res Symbol :=
  if d + 1 > 10 then .err (.NestedTooDeep (d + 1)) (d + 1) s
  else
    match fuel with
    | 0 => .outOfFuel
    | f + 1 =>
      match prereqOrAssignBody f (d + 1) s with
      | .ok v d2 s2 => .ok v (d2 - 1) s2
      | .err e d2 s2 => .err e d2 s2
      | .outOfFuel => .outOfFuel

/-- Body of tokenize_assignment_or_rule (sm.py:329-365), run at the
already-incremented depth: tokenize the LHS assuming an assignment; a
None result fails the tuple-type assert; if the deciding operator is a
rule operator, restore the saved position and re-tokenize the LHS in
rule mode, then parse the rule RHS; otherwise parse the assignment
RHS from the current position. -/
def assignmentOrRuleBody (fuel : Nat) (d : Nat) (s : List Char) : Res Symbol :=
  match fuel with
  | 0 => .outOfFuel
  | f + 1 =>
    match tokenize_statement_LHS f [] d s with
    | .ok none d2 s2 => .err .AssertionError d2 s2
    | .ok (some (lhsExpr, op)) d2 s2 =>
      if rule_operators.contains op.stringAttr then
        match tokenize_statement_LHS f whitespace d2 s with
        | .ok (some (lhsExpr2, op2)) d3 s3 =>
          match tokenize_rule_prereq_or_assign f d3 s3 with
          | .ok rhs d4 s4 => .ok (.RuleExpression [lhsExpr2, op2, rhs]) d4 s4
          | .err e d4 s4 => .err e d4 s4
          | .outOfFuel => .outOfFuel
        | .ok none d3 s3 => .err .TypeError d3 s3
        | .err e d3 s3 => .err e d3 s3
        | .outOfFuel => .outOfFuel
      else
        match tokenize_assign_RHS f d2 s2 with
        | .ok rhsExpr d3 s3 => AssignmentExpression_mk [lhsExpr, op, rhsExpr] d3 s3
        | .err e d3 s3 => .err e d3 s3
        | .outOfFuel => .outOfFuel
    | .err e d2 s2 => .err e d2 s2
    | .outOfFuel => .outOfFuel

/-- tokenize_assignment_or_rule decorated with depth_checker: the
top-level statement tokenizer. -/
def tokenize_assignment_or_rule (fuel : Nat) (d : Nat) (s : List Char) : Res Symbol :=
  if d + 1 > 10 then .err (.NestedTooDeep (d + 1)) (d + 1) s
  else
    match fuel with
    | 0 => .outOfFuel
    | f + 1 =>
      match assignmentOrRuleBody f (d + 1) s with
      | .ok v d2 s2 => .ok v (d2 - 1) s2
      | .err e d2 s2 => .err e d2 s2
      | .outOfFuel => .outOfFuel

end

/-- Fuel that is ample for every concrete input considered below (each
loop iteration and each nested tokenizer entry consumes one unit). -/
def FUEL : Nat := 1000

/-- Parse one statement from depth zero (a fresh parse, as after
depth_reset) and render the resulting tree back to Makefile text. -/
def renderParse (s : String) : Option String :=
  match tokenize_assignment_or_rule FUEL 0 s.toList with
  | .ok e _ _ => some e.makefile
  | _ => none

/-- A variable reference nested n levels deep around the body x. -/
def nestedRef : Nat → String
  | 0 => "x"
  | n + 1 => "$(" ++ nestedRef n ++ ")"

/-- Claim C1, counterexample.  The round-trip property fails on the
statement "all : this is a test", which the tokenizer accepts: the
tree re-renders with the whitespace around the rule operator and the
prerequisite separators canonicalized, giving "all:this is a test",
not the original text. -/
theorem C1_roundtrip_counterexample :
    renderParse "all : this is a test" = some "all:this is a test" ∧
    "all:this is a test" ≠ "all : this is a test" :=
  ⟨rfl, by decide⟩

/-- Claim C1, amended.  Rendering the parse result reproduces the
statement exactly when the statement is written canonically (no
whitespace around the deciding operator, single spaces between
prerequisites), for all four statement kinds: plain rule, rule with
empty prerequisites, rule with target-specific assignment, and plain
assignment. -/
theorem C1_roundtrip_canonical :
    renderParse "all:this is a test" = some "all:this is a test" ∧
    renderParse "all:" = some "all:" ∧
    renderParse "all:CC=gcc" = some "all:CC=gcc" ∧
    renderParse "CC=gcc" = some "CC=gcc" :=
  ⟨rfl, rfl, rfl, rfl⟩

/-- Claim C2.  Disambiguation correctness: "all : this is a test"
tokenizes to a RuleExpression with target Literal "all", operator
RuleOp ":", and a PrerequisiteList of the four Literals; "all : CC=gcc"
tokenizes to a RuleExpression whose third child is the
AssignmentExpression CC = gcc, not a PrerequisiteList. -/
theorem C2_disambiguation :
    tokenize_assignment_or_rule FUEL 0 "all : this is a test".toList =
      .ok (.RuleExpression [.Expression [.Literal "all"], .RuleOp ":",
        .PrerequisiteList [.Literal "this", .Literal "is", .Literal "a",
          .Literal "test"]]) 0 [] ∧
    tokenize_assignment_or_rule FUEL 0 "all : CC=gcc".toList =
      .ok (.RuleExpression [.Expression [.Literal "all"], .RuleOp ":",
        .AssignmentExpression [.Expression [.Literal "CC"], .AssignOp "=",
          .Expression [.Literal "gcc"]]]) 0 [] :=
  ⟨rfl, rfl⟩

/-- Claim C3.  The code collapses the escaped dollar: tokenizing
"$($$)" stores Literal "$" (sm.py:840 adds one dollar and consumes
two), so the children concatenate to "$", not to the inner source text
"$$" that the code's own test table (sm.py:1078) and comment
(sm.py:837) expect to be preserved.  For dollar-free nesting the
reconstruction does hold, as the second half shows. -/
theorem C3_dollar_dollar_collapsed :
    tokenize_variable_ref FUEL 0 "$($$)".toList =
      .ok (.VarRef [.Literal "$"]) 0 [] ∧
    mfConcat [.Literal "$"] = "$" ∧
    "$" ≠ "$$" ∧
    tokenize_variable_ref FUEL 0 "$(a$(b)c)".toList =
      .ok (.VarRef [.Literal "a", .VarRef [.Literal "b"], .Literal "c"]) 0 [] ∧
    mfConcat [.Literal "a", .VarRef [.Literal "b"], .Literal "c"] = "a$(b)c" :=
  ⟨rfl, rfl, by decide, rfl, rfl⟩

/-- Claim C4.  Operator maximal munch: the LHS tokenizer takes the
longest operator for each of the four endings, and in particular
"CC::=gcc" becomes the assignment CC ::= gcc, never RuleOp "::" with
leftover "=gcc". -/
theorem C4_maximal_munch :
    tokenize_statement_LHS FUEL [] 0 "CC:".toList =
      .ok (some (.Expression [.Literal "CC"], .RuleOp ":")) 0 [] ∧
    tokenize_statement_LHS FUEL [] 0 "CC::".toList =
      .ok (some (.Expression [.Literal "CC"], .RuleOp "::")) 0 [] ∧
    tokenize_statement_LHS FUEL [] 0 "CC:=gcc".toList =
      .ok (some (.Expression [.Literal "CC"], .AssignOp ":=")) 0 "gcc".toList ∧
    tokenize_statement_LHS FUEL [] 0 "CC::=gcc".toList =
      .ok (some (.Expression [.Literal "CC"], .AssignOp "::=")) 0 "gcc".toList ∧
    tokenize_assignment_or_rule FUEL 0 "CC::=gcc".toList =
      .ok (.AssignmentExpression [.Expression [.Literal "CC"], .AssignOp "::=",
        .Expression [.Literal "gcc"]]) 0 [] :=
  ⟨rfl, rfl, rfl, rfl, rfl⟩

/-- Claim C5.  Whitespace asymmetry: the assignment value of
"all : CC=gcc  # comment" keeps its two trailing spaces ("gcc  ") with
the comment stripped, and the assignment LHS of
"  this   is   a   test   = " keeps internal spaces but loses the
outer ones. -/
theorem C5_whitespace_asymmetry :
    tokenize_assignment_or_rule FUEL 0 "all : CC=gcc  # comment".toList =
      .ok (.RuleExpression [.Expression [.Literal "all"], .RuleOp ":",
        .AssignmentExpression [.Expression [.Literal "CC"], .AssignOp "=",
          .Expression [.Literal "gcc  "]]]) 0 [] ∧
    tokenize_assignment_or_rule FUEL 0 "  this   is   a   test   = ".toList =
      .ok (.AssignmentExpression
        [.Expression [.Literal "this   is   a   test"], .AssignOp "=",
         .Expression [.Literal ""]]) 0 [] :=
  ⟨rfl, rfl⟩

/-- Claim C6, counterexample.  For "all : " the third child is a
PrerequisiteList, but not one with zero children: it contains exactly
one child, the empty Literal (tokenize_rule_RHS appends the pending
empty token at end of input; the regression test at rule_test.py:31-39
expects exactly this). -/
theorem C6_empty_prereq_counterexample :
    tokenize_assignment_or_rule FUEL 0 "all : ".toList =
      .ok (.RuleExpression [.Expression [.Literal "all"], .RuleOp ":",
        .PrerequisiteList [.Literal ""]]) 0 [] ∧
    Symbol.childCount (.PrerequisiteList [.Literal ""]) = 1 ∧
    (1 : Nat) ≠ 0 :=
  ⟨rfl, rfl, by decide⟩

/-- Claim C6, amended.  For the no-prerequisite rule "all : " the third
child is a PrerequisiteList — never None — that renders as the empty
string; it holds a single empty Literal rather than zero children. -/
theorem C6_empty_prereq :
    tokenize_assignment_or_rule FUEL 0 "all : ".toList =
      .ok (.RuleExpression [.Expression [.Literal "all"], .RuleOp ":",
        .PrerequisiteList [.Literal ""]]) 0 [] ∧
    Symbol.isPrerequisiteListClass (.PrerequisiteList [.Literal ""]) = true ∧
    Symbol.makefile (.PrerequisiteList [.Literal ""]) = "" :=
  ⟨rfl, rfl, rfl⟩

/-- Claim C7.  Depth limit: entering the variable-reference tokenizer
with the counter already at 10 or more fails with NestedTooDeep
immediately, leaving the input untouched (the error carries the entry
scanner position); concretely, a reference nested 11 levels deep fails
with NestedTooDeep at the eleventh entry, with the remaining input
still positioned at that entry's dollar sign. -/
theorem C7_depth_limit :
    (∀ fuel k s, tokenize_variable_ref fuel (k + 10) s =
      .err (.NestedTooDeep (k + 11)) (k + 11) s) ∧
    tokenize_variable_ref FUEL 0 (nestedRef 11).toList =
      .err (.NestedTooDeep 11) 11 ((nestedRef 1).toList ++ List.replicate 10 ')') :=
  ⟨fun fuel k s => by
      have h : k + 10 + 1 = k + 11 := by omega
      unfold tokenize_variable_ref
      rw [if_pos (by omega), h],
   rfl⟩

/-- Claim C8.  Mismatched closers are accepted: the tokenizer records
the opener but never consults it, so after the two opening characters
the run is identical for "$(" and "${" (first conjunct, any depth below
the bound), and in the in-reference state the closers ")" and "}" take
the same branch (second conjunct); concretely "$(CC}" succeeds with the
same VarRef as "$(CC)". -/
theorem C8_mismatched_closers :
    (∀ fuel d cs, d < 10 →
      tokenize_variable_ref fuel d ('$' :: '(' :: cs) =
        tokenize_variable_ref fuel d ('$' :: '{' :: cs)) ∧
    (∀ fuel token acc d cs,
      vrLoop fuel .state_in_var_ref token acc d (')' :: cs) =
        vrLoop fuel .state_in_var_ref token acc d ('}' :: cs)) ∧
    tokenize_variable_ref FUEL 0 "$(CC\x7d".toList =
      .ok (.VarRef [.Literal "CC"]) 0 [] ∧
    tokenize_variable_ref FUEL 0 "$(CC)".toList =
      .ok (.VarRef [.Literal "CC"]) 0 [] :=
  ⟨fun fuel d cs h => by
      unfold tokenize_variable_ref
      rw [if_neg (by omega), if_neg (by omega)]
      cases fuel with
      | zero => rfl
      | succ f => cases f with
        | zero => rfl
        | succ g => cases g with
          | zero => rfl
          | succ h2 => rfl,
   fun fuel token acc d cs => by
      cases fuel with
      | zero => rfl
      | succ f => rfl,
   rfl, rfl⟩

/-- Claim C8, witness: the opener-irrelevance conjunct applied at a
concrete depth and body. -/
theorem C8_mismatched_closers_witness :
    tokenize_variable_ref 50 0 ('$' :: '(' :: "x)".toList) =
      tokenize_variable_ref 50 0 ('$' :: '{' :: "x)".toList) :=
  C8_mismatched_closers.1 50 0 "x)".toList (by omega)

/-- Claim C9, counterexample.  On "foo", which has no terminating
operator, tokenize_assignment_or_rule does not propagate the spec's
AmbiguousStatement: tokenize_statement_LHS falls off the end of its
loop and returns None, and the caller's assert type(lhs)==type(())
raises a plain AssertionError. -/
theorem C9_no_ambiguous_statement_counterexample :
    tokenize_assignment_or_rule FUEL 0 "foo".toList =
      .err .AssertionError 1 [] ∧
    Err.AssertionError ≠ Err.AmbiguousStatement :=
  ⟨rfl, by decide⟩

/-- Claim C9, amended.  When neither interpretation succeeds, the LHS
tokenizer returns None (a normal return with no token rather than a
raise), and tokenize_assignment_or_rule then fails with an
AssertionError from its tuple-type assert; no AmbiguousStatement
exception exists in the code. -/
theorem C9_no_operator_assertion :
    tokenize_statement_LHS FUEL [] 0 "foo".toList = .ok none 0 [] ∧
    tokenize_assignment_or_rule FUEL 0 "foo".toList =
      .err .AssertionError 1 [] :=
  ⟨rfl, rfl⟩

/-- Claim C10, counterexample.  The counter is not always before+1
after a raising guarded call: the top-level call on an 11-deep
reference starts with the counter at 0 and leaves it at 11 — one
increment per unwound guarded frame — not at 0 + 1. -/
theorem C10_depth_counterexample :
    tokenize_variable_ref FUEL 0 (nestedRef 11).toList =
      .err (.NestedTooDeep 11) 11 ((nestedRef 1).toList ++ List.replicate 10 ')') ∧
    (11 : Nat) ≠ 0 + 1 :=
  ⟨rfl, by decide⟩

/-- Claim C10, amended.  depth_checker decrements only on normal
return (a successful call leaves the counter as it found it, second
conjunct); a guarded call that raises at entry leaves the counter at
its value before the call plus one (first conjunct); and a call that
propagates a raise from nested guarded entries leaves it elevated by
one per unwound frame — 11 after the depth-limit failure on an
11-deep reference from a fresh counter — so a later parse in the same
process starts from that elevated depth unless depth_reset runs
first. -/
theorem C10_depth_after_raise :
    (∀ fuel k s, tokenize_variable_ref fuel (k + 10) s =
      .err (.NestedTooDeep (k + 11)) (k + 11) s) ∧
    tokenize_variable_ref FUEL 3 "$(x)".toList =
      .ok (.VarRef [.Literal "x"]) 3 [] ∧
    tokenize_variable_ref FUEL 0 (nestedRef 11).toList =
      .err (.NestedTooDeep 11) 11 ((nestedRef 1).toList ++ List.replicate 10 ')') :=
  ⟨fun fuel k s => by
      have h : k + 10 + 1 = k + 11 := by omega
      unfold tokenize_variable_ref
      rw [if_pos (by omega), h],
   rfl, rfl⟩

end Pymake
